import Mathlib

/-!
Shallow embedding of the user controller and the OTP-verification middleware
of a video-streaming backend (Express + Mongoose).  Each handler is modelled
as a pure function from an explicit store state to an `Except` result; a
handler that throws before any store mutation returns the unchanged state
alongside the error, so "state unchanged on failure" is visible in the type.
-/

set_option maxHeartbeats 1000000

namespace VideoApp

/-- An application error as constructed by `new ApiError(statusCode, message)`. -/
structure ApiError where
  statusCode : Nat
  message : String
deriving DecidableEq

def startsWithChars : List Char → List Char → Bool
  | _, [] => true
  | [], _ :: _ => false
  | c :: cs, d :: ds => c = d && startsWithChars cs ds

def hasSubstrChars (pat : List Char) : List Char → Bool
  | [] => pat.isEmpty
  | c :: cs => startsWithChars (c :: cs) pat || hasSubstrChars pat cs

/-- JavaScript `String.prototype.includes`: `pat` occurs as a substring of `s`
(the empty pattern is always included). -/
def jsIncludes (s pat : String) : Bool :=
  hasSubstrChars pat.data s.data

def splitCharAux (sep : Char) : List Char → List Char → List (List Char)
  | [], acc => [acc.reverse]
  | c :: cs, acc =>
    if c = sep then acc.reverse :: splitCharAux sep cs []
    else splitCharAux sep cs (c :: acc)

/-- JavaScript `String.prototype.split` with a one-character separator. -/
def jsSplit (s : String) (sep : Char) : List String :=
  (splitCharAux sep s.data []).map String.mk

/-- JavaScript `String.prototype.toLowerCase` (character-wise lowering). -/
def jsToLower (s : String) : String :=
  String.mk (s.data.map Char.toLower)

/-- JavaScript `String.prototype.trim`: strip whitespace from both ends. -/
def jsTrim (s : String) : String :=
  String.mk (((s.data.dropWhile Char.isWhitespace).reverse.dropWhile
    Char.isWhitespace).reverse)

def isHexChar (c : Char) : Bool :=
  c.isDigit || (('a' ≤ c) && (c ≤ 'f')) || (('A' ≤ c) && (c ≤ 'F'))

/-- `mongoose.isValidObjectId` on a string input: a 24-character hexadecimal
string, or any 12-character string (12-byte form). -/
def isValidObjectId (s : String) : Bool :=
  (s.length == 24 && s.data.all isHexChar) || s.length == 12

/-- `parseInt(q, 10) || d`: a query value that fails to parse (`NaN`, modelled
as `none`) or parses to the falsy value 0 is replaced by the default `d`. -/
def jsParseOr (q : Option Int) (d : Int) : Int :=
  match q with
  | none => d
  | some n => if n = 0 then d else n

structure Video where
  id : String
  owner : String
  title : String
  thumbnail : String
  duration : Nat
  views : Nat
  isPublished : Bool
  createdAt : Int
deriving DecidableEq

structure User where
  id : String
  username : String
  email : String
  fullName : String
  avatar : String
  coverImage : String
  verified : Bool
  createdAt : Int
  watchHistory : List String
  refreshToken : Option String
deriving DecidableEq

/-- A subscription edge: `subscriber` follows `channel`. -/
structure Subscription where
  subscriber : String
  channel : String
deriving DecidableEq

/-- The document store: users, videos and subscription edges. -/
structure DB where
  users : List User
  videos : List Video
  subscriptions : List Subscription
deriving DecidableEq

/-- The owner projection used inside the watch-history join
(`_id, fullName, username, avatar, verified`). -/
structure OwnerProjection where
  id : String
  fullName : String
  username : String
  avatar : String
  verified : Bool
deriving DecidableEq

/-- The video projection produced by the watch-history pipeline
(`_id, thumbnail, title, duration, views, isPublished, owner`); `owner` is
`$first` of the looked-up owners, hence optional. -/
structure VideoSummary where
  id : String
  thumbnail : String
  title : String
  duration : Nat
  views : Nat
  isPublished : Bool
  owner : Option OwnerProjection
deriving DecidableEq

def ownerProjection (u : User) : OwnerProjection :=
  { id := u.id, fullName := u.fullName, username := u.username,
    avatar := u.avatar, verified := u.verified }

/-- Stable insertion for descending sort by creation time: an element moves in
front only of strictly older elements, preserving the order of ties. -/
def insertByCreatedAtDesc (v : Video) : List Video → List Video
  | [] => [v]
  | w :: ws =>
    if w.createdAt < v.createdAt then v :: w :: ws else w :: insertByCreatedAtDesc v ws

/-- `$sort {createdAt: -1}` as a stable descending sort. -/
def sortByCreatedAtDesc (l : List Video) : List Video :=
  l.foldr insertByCreatedAtDesc []

def videoSummaryOf (db : DB) (v : Video) : VideoSummary :=
  { id := v.id, thumbnail := v.thumbnail, title := v.title,
    duration := v.duration, views := v.views, isPublished := v.isPublished,
    owner := (db.users.find? (fun u => u.id == v.owner)).map ownerProjection }

/-- The inner `$lookup` pipeline of `getWatchHistory` for one history entry:
all stored videos whose id matches the entry, filtered to `isPublished: true`,
sorted by `createdAt` descending, each enriched with the first matching owner
projection. -/
def videoLookup (db : DB) (vid : String) : List VideoSummary :=
  (sortByCreatedAtDesc (db.videos.filter (fun v => v.id == vid && v.isPublished))).map
    (videoSummaryOf db)

/-- The aggregation pipeline of `getWatchHistory` applied to one user
document: `$reverseArray` the stored history, `$unwind`, `$lookup` each entry
(`videoLookup`), `$unwind` again (dropping entries whose lookup is empty),
`$replaceRoot`, `$skip`, `$limit`. -/
def watchHistoryAgg (db : DB) (u : User) (skip lim : Nat) : List VideoSummary :=
  (((u.watchHistory.reverse).flatMap (videoLookup db)).drop skip).take lim

/-- The `getWatchHistory` handler: store, authenticated user id, and the raw
`page` and `limit` query values (as parsed integers, `none` for a missing or
non-numeric value).  The second component records whether the aggregation
query was issued to the store.  The non-positive-pagination branch answers
with a 400 response body; like the thrown errors it is modelled as
`Except.error` with status 400. -/
def getWatchHistory (db : DB) (userId : String) (qpage qlimit : Option Int) :
    Except ApiError (List VideoSummary) × Bool :=
  match db.users.find? (fun u => u.id == userId) with
  | none => (.error ⟨404, "User does not exists"⟩, false)
  | some u =>
    let page := jsParseOr qpage 1
    let lim := jsParseOr qlimit 10
    if page < 1 || lim < 1 then
      (.error ⟨400, "Page and limit must be positive integers"⟩, false)
    else
      (.ok (watchHistoryAgg db u ((page - 1) * lim).toNat lim.toNat), true)

/-- The fields selected by `pushVideoToWatchHistory`
(`watchHistory _id username`). -/
structure PushResult where
  id : String
  username : String
  watchHistory : List String
deriving DecidableEq

/-- The `pushVideoToWatchHistory` handler.  `findByIdAndUpdate` with `$push`
and `new: true` is modelled as updating every user document with the given id
(ids are unique in the store) and returning the updated document. -/
def pushVideoToWatchHistory (db : DB) (userId videoId : String) :
    Except ApiError PushResult × DB :=
  if ! isValidObjectId videoId then
    (.error ⟨400, "video id is not a valid object id"⟩, db)
  else
    match db.videos.find? (fun v => v.id == videoId && v.isPublished) with
    | none => (.error ⟨400, "video not found"⟩, db)
    | some v =>
      let users2 := db.users.map (fun w =>
        if w.id == userId then { w with watchHistory := w.watchHistory ++ [v.id] } else w)
      let db2 := { db with users := users2 }
      match users2.find? (fun u => u.id == userId) with
      | none => (.error ⟨400, "User not found"⟩, db2)
      | some u =>
        (.ok { id := u.id, username := u.username, watchHistory := u.watchHistory }, db2)

/-- The projection returned by the channel-profile pipeline. -/
structure ChannelProfile where
  fullName : String
  username : String
  subscribersCount : Nat
  channelsSubscibedToCount : Nat
  isSubscribed : Bool
  avatar : String
  coverImage : String
  email : String
  verified : Bool
  createdAt : Int
deriving DecidableEq

/-- One document of the channel-profile aggregation: the two `$lookup` stages
collect the edges where the user is the channel (`subscribers`) and where the
user is the subscriber (`subscribedTo`); `$addFields` takes their sizes and
tests membership of the viewer id among `subscribers.subscriber` (`$in` with a
missing viewer id is false, as edge subscriber fields are always set). -/
def channelProfileDoc (db : DB) (viewer : Option String) (u : User) : ChannelProfile :=
  let subscribers := db.subscriptions.filter (fun s => s.channel == u.id)
  let subscribedTo := db.subscriptions.filter (fun s => s.subscriber == u.id)
  { fullName := u.fullName
    username := u.username
    subscribersCount := subscribers.length
    channelsSubscibedToCount := subscribedTo.length
    isSubscribed :=
      match viewer with
      | none => false
      | some v => (subscribers.map (fun s => s.subscriber)).contains v
    avatar := u.avatar
    coverImage := u.coverImage
    email := u.email
    verified := u.verified
    createdAt := u.createdAt }

/-- The `getUserChannelProfile` handler: `$match` on the lowercased request
username against the stored username, the pipeline of `channelProfileDoc`,
then 404 when the aggregation result is empty, else its first document. -/
def getUserChannelProfile (db : DB) (username : Option String) (viewer : Option String) :
    Except ApiError ChannelProfile :=
  match username with
  | none => .error ⟨400, "username is missing"⟩
  | some uname =>
    if (jsTrim uname).isEmpty then .error ⟨400, "username is missing"⟩
    else
      match (db.users.filter (fun u => u.username == jsToLower uname)).map
          (channelProfileDoc db viewer) with
      | [] => .error ⟨404, "channel does not exists"⟩
      | c :: _ => .ok c

/-- `generateAccessAndRefreshTokens`: look the user up, generate a token pair
(`gen`, abstracting the two signing calls), store the refresh token on the
user record and save.  Any failure inside the try block (here: the lookup
returning null, so the method calls on it throw) becomes a 500. -/
def generateAccessAndRefreshTokens (gen : String → String × String) (db : DB)
    (userId : String) : Except ApiError (String × String) × DB :=
  match db.users.find? (fun u => u.id == userId) with
  | none => (.error ⟨500, "Something went wrong"⟩, db)
  | some _ =>
    let p := gen userId
    (.ok p,
     { db with users := db.users.map (fun w =>
         if w.id == userId then { w with refreshToken := some p.2 } else w) })

/-- The `refreshAccessToken` handler.  `verify` abstracts `jwt.verify` under
the refresh-token secret: `some uid` when the token is cryptographically valid
(correctly signed, unexpired) with payload id `uid`, `none` when verification
throws.  `incoming` is the token from cookie or body.  The surrounding
try/catch rewraps every error as a 401 with the same message. -/
def refreshAccessToken (verify : String → Option String) (gen : String → String × String)
    (db : DB) (incoming : Option String) : Except ApiError (String × String) × DB :=
  match incoming with
  | none => (.error ⟨401, "Unauthorized request"⟩, db)
  | some tok =>
    match verify tok with
    | none => (.error ⟨401, "invalid token"⟩, db)
    | some uid =>
      match db.users.find? (fun u => u.id == uid) with
      | none => (.error ⟨401, "Invalid refresh token"⟩, db)
      | some u =>
        if some tok != u.refreshToken then
          (.error ⟨401, "Refresh token is expired or used"⟩, db)
        else
          match generateAccessAndRefreshTokens gen db u.id with
          | (.error e, db2) => (.error ⟨401, e.message⟩, db2)
          | (.ok p, db2) => (.ok p, db2)

/-- An OTP record: email, stored code, context tag and expiry instant. -/
structure OtpRecord where
  email : String
  code : String
  context : String
  expires : Int
deriving DecidableEq

/-- The OTP store, an ordered collection of records. -/
structure OtpState where
  records : List OtpRecord
deriving DecidableEq

/-- Modelled from the spec: `otpData.isOtpCorrect` is a method of the Otp
model, whose file is not among the given sources; per the contract (the
verification gate fails when "the code does not match") it compares the
submitted code with the code stored in the record. -/
def isOtpCorrect (r : OtpRecord) (submitted : String) : Bool :=
  r.code == submitted

/-- `Otp.deleteOne {email}`: remove the first record with the given email. -/
def deleteOneByEmail : List OtpRecord → String → List OtpRecord
  | [], _ => []
  | r :: rs, e => if r.email == e then rs else r :: deleteOneByEmail rs e

/-- The context tag the middleware derives from the route:
`req.url.split("/")[1]`, which is undefined (`none`) when the url has no
second segment. -/
def routeContext (url : String) : Option String :=
  (jsSplit url '/')[1]?

/-- The `verifyOtp` middleware: body fields `email` and `otp` (`none` for a
missing field, falsy also when empty), the current instant `now`, and the
request url.  On success it deletes the record and sets `req.verifyOtp = true`
(the `Bool` result); every thrown error leaves the store unchanged. -/
def verifyOtp (now : Int) (url : String) (st : OtpState) (email? otp? : Option String) :
    Except ApiError Bool × OtpState :=
  match email?, otp? with
  | some e, some o =>
    if e.isEmpty || o.isEmpty then
      (.error ⟨400, "Email and otp is required"⟩, st)
    else
      match st.records.find? (fun r => r.email == e) with
      | none => (.error ⟨404, "Otp not found"⟩, st)
      | some r =>
        if r.expires < now then (.error ⟨404, "Otp is expired"⟩, st)
        else if routeContext url != some r.context then
          (.error ⟨404, "Invalid otp"⟩, st)
        else if ! isOtpCorrect r o then (.error ⟨404, "Invalid otp"⟩, st)
        else (.ok true, ⟨deleteOneByEmail st.records r.email⟩)
  | _, _ => (.error ⟨400, "Email and otp is required"⟩, st)

/-- A multer upload: temporary local path and reported mimetype. -/
structure UploadedFile where
  path : String
  mimetype : String
deriving DecidableEq

/-- An error escaping a handler: a thrown `ApiError`, or a plain JavaScript
error such as the `ReferenceError` raised on reading an undeclared
identifier. -/
inductive HandlerError where
  | api (e : ApiError)
  | referenceError (name : String)
  | typeError (msg : String)
deriving DecidableEq

/-- The `updateUserAvatar` handler.  `upload` abstracts
`cloudinary.upload(localPath, "videotube/users")`: `some url` on success with
`secure_url = url`, `none` when the response has no `secure_url`.  The second
component records whether the temporary local file was unlinked.  After a
successful upload the code reads the undeclared identifier `ture` while
building the update options, so that path raises a `ReferenceError` before
`findByIdAndUpdate` runs; no path mutates the user store.  (The lookup of the
old user and the CDN delete of the old avatar touch no modelled state; a
missing user would make `oldUser.avatar` throw a `TypeError`.) -/
def updateUserAvatar (upload : String → String → Option String) (db : DB)
    (userId : String) (file : Option UploadedFile) :
    Except HandlerError User × Bool :=
  match file with
  | none => (.error (.api ⟨400, "Avatar file is missing"⟩), false)
  | some f =>
    if f.path.isEmpty then (.error (.api ⟨400, "Avatar file is missing"⟩), false)
    else if ! jsIncludes f.mimetype "image" then
      (.error (.api ⟨400, "Only images are allowed to upload"⟩), true)
    else
      match upload f.path "videotube/users" with
      | none => (.error (.api ⟨500, "Error while uploading avatar"⟩), false)
      | some _ =>
        match db.users.find? (fun u => u.id == userId) with
        | none => (.error (.typeError "oldUser is null"), false)
        | some _ => (.error (.referenceError "ture"), false)

/-- The `updateUserCoverImage` handler, same conventions as
`updateUserAvatar`; its mimetype gate additionally rejects any mimetype
containing "gif".  `findByIdAndUpdate` with `new: true` returns the updated
document or null, forwarded as-is in the response. -/
def updateUserCoverImage (upload : String → String → Option String) (db : DB)
    (userId : String) (file : Option UploadedFile) :
    Except HandlerError (Option User) × DB × Bool :=
  match file with
  | none => (.error (.api ⟨400, "Cover file is missing"⟩), db, false)
  | some f =>
    if f.path.isEmpty then (.error (.api ⟨400, "Cover file is missing"⟩), db, false)
    else if jsIncludes f.mimetype "gif" || ! jsIncludes f.mimetype "image" then
      (.error (.api ⟨400, "Only images are allowed to upload"⟩), db, true)
    else
      match upload f.path "videotube/users" with
      | none => (.error (.api ⟨500, "Error while uploading cover image"⟩), db, false)
      | some url =>
        let users2 := db.users.map (fun w =>
          if w.id == userId then { w with coverImage := url } else w)
        (.ok (users2.find? (fun u => u.id == userId)), { db with users := users2 }, false)

/-- The per-entry join the watch-history pipeline computes when video ids are
unique in the store: the first published video with the entry id, projected. -/
def publishedJoin (db : DB) (vid : String) : Option VideoSummary :=
  (db.videos.find? (fun v => v.id == vid && v.isPublished)).map (videoSummaryOf db)

lemma filter_eq_find?_toList_of_nodup_ids (vid : String) (l : List Video)
    (h : (l.map Video.id).Nodup) :
    l.filter (fun v => v.id == vid && v.isPublished) =
      (l.find? (fun v => v.id == vid && v.isPublished)).toList := by
  induction l with
  | nil => rfl
  | cons v vs ih =>
    simp only [List.map_cons, List.nodup_cons, List.mem_map] at h
    simp only [List.filter_cons, List.find?_cons]
    by_cases hv : (v.id == vid && v.isPublished) = true
    · have hvid : v.id = vid := by
        have := (Bool.and_eq_true _ _).mp hv
        simpa using this.1
      have hnil : vs.filter (fun w => w.id == vid && w.isPublished) = [] := by
        rw [List.filter_eq_nil_iff]
        intro w hw hpw
        have hwid : w.id = vid := by
          have := (Bool.and_eq_true _ _).mp hpw
          simpa using this.1
        exact h.1 ⟨w, hw, hwid.trans hvid.symm⟩
      simp [hv, hnil, Option.toList]
    · simp only [Bool.not_eq_true] at hv
      simp only [hv, if_false, cond_false]
      exact ih h.2

lemma videoLookup_eq_publishedJoin (db : DB)
    (h : (db.videos.map Video.id).Nodup) (vid : String) :
    videoLookup db vid = (publishedJoin db vid).toList := by
  unfold videoLookup publishedJoin
  rw [filter_eq_find?_toList_of_nodup_ids vid db.videos h]
  cases db.videos.find? (fun v => v.id == vid && v.isPublished) with
  | none => rfl
  | some v => rfl

lemma flatMap_videoLookup_eq_filterMap (db : DB)
    (h : (db.videos.map Video.id).Nodup) (l : List String) :
    l.flatMap (videoLookup db) = l.filterMap (publishedJoin db) := by
  induction l with
  | nil => rfl
  | cons x xs ih =>
    rw [List.flatMap_cons, List.filterMap_cons, videoLookup_eq_publishedJoin db h x, ih]
    cases publishedJoin db x with
    | none => rfl
    | some s => rfl

/-- The happy path of `getWatchHistory` in closed form: with the user present,
unique video ids and positive parsed pagination, the result is the reversed
stored history joined to published-video summaries, with `(page-1)*limit`
entries dropped and `limit` taken. -/
lemma getWatchHistory_ok (db : DB) (userId : String) (u : User) (p l : Int)
    (hu : db.users.find? (fun w => w.id == userId) = some u)
    (hids : (db.videos.map Video.id).Nodup)
    (hp : 1 ≤ p) (hl : 1 ≤ l) :
    getWatchHistory db userId (some p) (some l) =
      (.ok ((((u.watchHistory.reverse).filterMap (publishedJoin db)).drop
        (((p - 1) * l).toNat)).take l.toNat), true) := by
  unfold getWatchHistory
  rw [hu]
  have hp0 : p ≠ 0 := by omega
  have hl0 : l ≠ 0 := by omega
  have hpage : jsParseOr (some p) 1 = p := by simp [jsParseOr, hp0]
  have hlim : jsParseOr (some l) 10 = l := by simp [jsParseOr, hl0]
  simp only [hpage, hlim]
  have hcond : (p < 1 || l < 1) = false := by
    simp only [Bool.or_eq_false_iff, decide_eq_false_iff_not]
    omega
  simp only [hcond, Bool.false_eq_true, if_false]
  unfold watchHistoryAgg
  rw [flatMap_videoLookup_eq_filterMap db hids]

/-! Concrete fixtures used by the witness theorems. -/

def vidA : String := "videoA000001"

def vidB : String := "videoB000002"

def vidC : String := "videoC000003"

def userW : User :=
  { id := "u1", username := "alice", email := "alice@example.com",
    fullName := "Alice A", avatar := "av1", coverImage := "cv1",
    verified := true, createdAt := 5, watchHistory := [vidA, vidB, vidC],
    refreshToken := some "rt-current" }

def videoW (i : String) (pub : Bool) : Video :=
  { id := i, owner := "u1", title := i, thumbnail := "th", duration := 3,
    views := 7, isPublished := pub, createdAt := 1 }

def dbW : DB :=
  { users := [userW],
    videos := [videoW vidA true, videoW vidB false, videoW vidC true],
    subscriptions := [] }

def otpW : OtpRecord :=
  { email := "alice@example.com", code := "123456", context := "register",
    expires := 100 }

def otpStW : OtpState := ⟨[otpW]⟩

/-- C1: for a viewer found in the store, with unique video ids and positive
page and limit, the watch-history aggregation returns the reversal of the
stored (oldest-first) history, joined to summaries of the still-published
videos only, with `(page-1)*limit` entries skipped and at most `limit`
entries returned; the aggregation query is issued. -/
theorem C1_watch_history_reversed_filtered_paginated (db : DB) (userId : String)
    (u : User) (p l : Int)
    (hu : db.users.find? (fun w => w.id == userId) = some u)
    (hids : (db.videos.map Video.id).Nodup)
    (hp : 1 ≤ p) (hl : 1 ≤ l) :
    getWatchHistory db userId (some p) (some l) =
      (.ok ((((u.watchHistory.reverse).filterMap (publishedJoin db)).drop
        (((p - 1) * l).toNat)).take l.toNat), true) :=
  getWatchHistory_ok db userId u p l hu hids hp hl

/-- C1 witness: a viewer with stored history `[A, B, C]` (oldest first), `B`
unpublished, page 1 and limit 10, gets `[C, A]` newest first. -/
theorem C1_watch_history_witness :
    getWatchHistory dbW "u1" (some 1) (some 10) =
      (.ok [videoSummaryOf dbW (videoW vidC true), videoSummaryOf dbW (videoW vidA true)],
       true) := by
  rw [C1_watch_history_reversed_filtered_paginated dbW "u1" userW 1 10 (by decide)
    (by decide) (by decide) (by decide)]
  rfl

/-- C2 counterexample: a request whose `page` and `limit` query values parse
to 0 is non-positive (`0 < 1`), yet the handler does not reject it: the falsy
parse results are coerced to the defaults, the aggregation query is issued
(second component `true`) and the request succeeds. -/
theorem C2_counterexample_zero_pagination :
    getWatchHistory dbW "u1" (some 0) (some 0) =
      (.ok [videoSummaryOf dbW (videoW vidC true), videoSummaryOf dbW (videoW vidA true)],
       true) := by
  rfl

/-- C2 (amended): a watch-history request whose `page` or `limit` query value
parses to a negative integer is answered with the 400 validation message, and
the aggregation query is not issued (second component `false`); a value that
parses to 0 or does not parse is coerced to the defaults (page 1, limit 10)
instead of being rejected. -/
theorem C2_negative_pagination_rejected (db : DB) (userId : String) (u : User)
    (qp ql : Option Int)
    (hu : db.users.find? (fun w => w.id == userId) = some u)
    (hneg : (∃ n, qp = some n ∧ n < 0) ∨ (∃ n, ql = some n ∧ n < 0)) :
    getWatchHistory db userId qp ql =
      (.error ⟨400, "Page and limit must be positive integers"⟩, false) := by
  unfold getWatchHistory
  rw [hu]
  have hcond : (jsParseOr qp 1 < 1 || jsParseOr ql 10 < 1) = true := by
    rcases hneg with ⟨n, hq, hn⟩ | ⟨n, hq, hn⟩ <;> subst hq <;>
      simp only [jsParseOr, show n ≠ 0 from by omega, if_neg, Bool.or_eq_true,
        decide_eq_true_eq, if_false]
    · left; omega
    · right; omega
  simp only [hcond, if_true]

/-- C2 witness for the amended statement: `page=-1` with no limit given is
rejected with the 400 message before the aggregation runs. -/
theorem C2_negative_pagination_witness :
    getWatchHistory dbW "u1" (some (-1)) none =
      (.error ⟨400, "Page and limit must be positive integers"⟩, false) :=
  C2_negative_pagination_rejected dbW "u1" userW (some (-1)) none (by decide)
    (Or.inl ⟨-1, rfl, by decide⟩)

lemma find?_users_update (l : List User) (x : String) (g : User → User)
    (hg : ∀ w, (g w).id = w.id) :
    (l.map (fun w => if w.id == x then g w else w)).find? (fun w => w.id == x) =
      (l.find? (fun w => w.id == x)).map (fun w => if w.id == x then g w else w) := by
  rw [List.find?_map]
  have hco : ((fun w : User => w.id == x) ∘ fun w => if w.id == x then g w else w) =
      (fun w : User => w.id == x) := by
    funext w
    by_cases h : (w.id == x) = true
    · simp [Function.comp, h, hg]
    · simp [Function.comp, h]
  rw [hco]

/-- The success path of `pushVideoToWatchHistory` in closed form: a valid id
whose published video is found is appended (never deduplicated, never
replacing) to the end of the stored history of the authenticated user. -/
lemma push_ok (db : DB) (userId vid : String) (u : User) (v : Video)
    (hvalid : isValidObjectId vid = true)
    (hv : db.videos.find? (fun w => w.id == vid && w.isPublished) = some v)
    (hu : db.users.find? (fun w => w.id == userId) = some u) :
    pushVideoToWatchHistory db userId vid =
      (.ok { id := u.id, username := u.username,
             watchHistory := u.watchHistory ++ [v.id] },
       { db with users := db.users.map (fun w =>
           if w.id == userId then { w with watchHistory := w.watchHistory ++ [v.id] }
           else w) }) := by
  have huid0 := List.find?_some hu
  have huid : (u.id == userId) = true := huid0
  have hfind2 : (db.users.map (fun w =>
      if w.id == userId then { w with watchHistory := w.watchHistory ++ [v.id] }
      else w)).find? (fun w => w.id == userId) =
      some { u with watchHistory := u.watchHistory ++ [v.id] } := by
    rw [find?_users_update db.users userId _ (fun w => by
      by_cases h : (w.id == userId) = true <;> simp [h]), hu]
    simp only [Option.map_some']
    rw [if_pos huid]
  unfold pushVideoToWatchHistory
  simp only [hvalid, Bool.not_true, Bool.false_eq_true, if_false, hv, hfind2]

/-- C3: pushing the same published video id twice appends it twice at the end
of the stored watch-history sequence (no deduplication), and the duplicates
survive the aggregation join: with page 1 and limit at least 2, the paginated
output starts with that video twice. -/
theorem C3_push_twice_appears_twice (db : DB) (userId vid : String) (u : User)
    (v : Video) (l : Int)
    (hvalid : isValidObjectId vid = true)
    (hv : db.videos.find? (fun w => w.id == vid && w.isPublished) = some v)
    (hu : db.users.find? (fun w => w.id == userId) = some u)
    (hids : (db.videos.map Video.id).Nodup)
    (hl : 2 ≤ l) :
    ∃ r1 db1 r2 db2,
      pushVideoToWatchHistory db userId vid = (.ok r1, db1) ∧
      pushVideoToWatchHistory db1 userId vid = (.ok r2, db2) ∧
      r2.watchHistory = u.watchHistory ++ [vid, vid] ∧
      db2.users.find? (fun w => w.id == userId) =
        some { u with watchHistory := u.watchHistory ++ [vid, vid] } ∧
      ∃ rest, getWatchHistory db2 userId (some 1) (some l) =
        (.ok (videoSummaryOf db2 v :: videoSummaryOf db2 v :: rest), true) := by
  have hpv0 := List.find?_some hv
  have hpv : (v.id == vid && v.isPublished) = true := hpv0
  have hvid : v.id = vid := by
    have := (Bool.and_eq_true _ _).mp hpv
    simpa using this.1
  have huid0 := List.find?_some hu
  have huid : (u.id == userId) = true := huid0
  have h1 := push_ok db userId vid u v hvalid hv hu
  set u1 : User := { u with watchHistory := u.watchHistory ++ [v.id] } with hu1def
  set db1 : DB := { db with users := db.users.map (fun w =>
    if w.id == userId then { w with watchHistory := w.watchHistory ++ [v.id] }
    else w) } with hdb1def
  have hv1 : db1.videos.find? (fun w => w.id == vid && w.isPublished) = some v := hv
  have hu1f : db1.users.find? (fun w => w.id == userId) = some u1 := by
    show (db.users.map (fun w =>
      if w.id == userId then { w with watchHistory := w.watchHistory ++ [v.id] }
      else w)).find? (fun w => w.id == userId) = some u1
    rw [find?_users_update db.users userId _ (fun w => by
      by_cases h : (w.id == userId) = true <;> simp [h]), hu]
    simp only [Option.map_some']
    rw [if_pos huid]
  have h2 := push_ok db1 userId vid u1 v hvalid hv1 hu1f
  set u2 : User := { u with watchHistory := u.watchHistory ++ [vid, vid] } with hu2def
  set db2 : DB := { db1 with users := db1.users.map (fun w =>
    if w.id == userId then { w with watchHistory := w.watchHistory ++ [v.id] }
    else w) } with hdb2def
  have hu1u2 : { u1 with watchHistory := u1.watchHistory ++ [v.id] } = u2 := by
    rw [hu1def, hu2def]
    simp [hvid]
  have hu2f : db2.users.find? (fun w => w.id == userId) = some u2 := by
    show (db1.users.map (fun w =>
      if w.id == userId then { w with watchHistory := w.watchHistory ++ [v.id] }
      else w)).find? (fun w => w.id == userId) = some u2
    rw [find?_users_update db1.users userId _ (fun w => by
      by_cases h : (w.id == userId) = true <;> simp [h]), hu1f]
    simp only [Option.map_some']
    rw [if_pos huid, hu1u2]
  refine ⟨_, db1, _, db2, h1, h2, ?_, hu2f, ?_⟩
  · simp [hu1def, hvid]
  · have hids2 : (db2.videos.map Video.id).Nodup := hids
    have hl1 : (1 : Int) ≤ l := by omega
    have hmain := getWatchHistory_ok db2 userId u2 1 l hu2f hids2 (by omega) hl1
    refine ⟨((u.watchHistory.reverse).filterMap (publishedJoin db2)).take (l.toNat - 2), ?_⟩
    rw [hmain]
    have hrev : u2.watchHistory.reverse = vid :: vid :: u.watchHistory.reverse := by
      rw [hu2def]
      simp
    have hpj : publishedJoin db2 vid = some (videoSummaryOf db2 v) := by
      have hv2 : db2.videos.find? (fun w => w.id == vid && w.isPublished) = some v := hv
      unfold publishedJoin
      rw [hv2]
      rfl
    obtain ⟨k, hk⟩ : ∃ k, l.toNat = k + 2 := ⟨l.toNat - 2, by omega⟩
    rw [hrev]
    simp only [List.filterMap_cons, hpj]
    have hdrop : ((1 : Int) - 1) * l = 0 := by ring
    rw [hdrop]
    simp only [Int.toNat_zero, List.drop_zero, hk, List.take_succ_cons]
    have hk2 : k = l.toNat - 2 := by omega
    rw [hk2]
    norm_num

/-- C3 witness: in the concrete store, pushing video `A` twice to the history
`[A, B, C]` of user `u1` yields `[A, B, C, A, A]`, and the first page with
limit 2 shows video `A` twice. -/
theorem C3_push_twice_witness :
    ∃ r1 db1 r2 db2,
      pushVideoToWatchHistory dbW "u1" vidA = (.ok r1, db1) ∧
      pushVideoToWatchHistory db1 "u1" vidA = (.ok r2, db2) ∧
      r2.watchHistory = userW.watchHistory ++ [vidA, vidA] ∧
      db2.users.find? (fun w => w.id == "u1") =
        some { userW with watchHistory := userW.watchHistory ++ [vidA, vidA] } ∧
      ∃ rest, getWatchHistory db2 "u1" (some 1) (some 2) =
        (.ok (videoSummaryOf db2 (videoW vidA true) ::
          videoSummaryOf db2 (videoW vidA true) :: rest), true) :=
  C3_push_twice_appears_twice dbW "u1" vidA userW (videoW vidA true) 2 (by decide)
    (by decide) (by decide) (by decide) (by decide)

/-- C4: `pushVideoToWatchHistory` fails without touching the store, with the
400 invalid-object-id error when the identifier is malformed, and with the 400
"video not found" error when no published video has that id (the video is
absent or unpublished); in both cases the returned store is the unchanged
input store, so the watch-history sequence of every viewer is unchanged.  The
code distinguishes the two causes by message only; both carry status 400. -/
theorem C4_push_failure_leaves_history_unchanged (db : DB) (userId vid : String) :
    (isValidObjectId vid = false →
      pushVideoToWatchHistory db userId vid =
        (.error ⟨400, "video id is not a valid object id"⟩, db)) ∧
    (isValidObjectId vid = true →
      db.videos.find? (fun w => w.id == vid && w.isPublished) = none →
      pushVideoToWatchHistory db userId vid = (.error ⟨400, "video not found"⟩, db)) := by
  constructor
  · intro hbad
    unfold pushVideoToWatchHistory
    simp [hbad]
  · intro hok hnone
    unfold pushVideoToWatchHistory
    simp [hok, hnone]

/-- C4 witness: a malformed id is rejected with the invalid-object-id error,
and a well-formed id of an unpublished video (`B`) and of an absent video are
rejected with "video not found"; the store is returned unchanged each time. -/
theorem C4_push_failure_witness :
    pushVideoToWatchHistory dbW "u1" "nope" =
      (.error ⟨400, "video id is not a valid object id"⟩, dbW) ∧
    pushVideoToWatchHistory dbW "u1" vidB =
      (.error ⟨400, "video not found"⟩, dbW) ∧
    pushVideoToWatchHistory dbW "u1" "missing00000" =
      (.error ⟨400, "video not found"⟩, dbW) :=
  ⟨(C4_push_failure_leaves_history_unchanged dbW "u1" "nope").1 (by decide),
   (C4_push_failure_leaves_history_unchanged dbW "u1" vidB).2 (by decide) (by decide),
   (C4_push_failure_leaves_history_unchanged dbW "u1" "missing00000").2 (by decide)
     (by decide)⟩

lemma find?_deleteOne_eq_none (l : List OtpRecord) (e : String)
    (h : (l.filter (fun q => q.email == e)).length ≤ 1) :
    (deleteOneByEmail l e).find? (fun q => q.email == e) = none := by
  induction l with
  | nil => rfl
  | cons r rs ih =>
    by_cases hr : (r.email == e) = true
    · simp only [deleteOneByEmail, hr, if_true]
      rw [List.find?_eq_none]
      intro q hq hpq
      have hlen : (rs.filter (fun q => q.email == e)).length = 0 := by
        rw [List.filter_cons] at h
        simp only [hr, if_true, List.length_cons] at h
        omega
      have hnil := List.eq_nil_of_length_eq_zero hlen
      rw [List.filter_eq_nil_iff] at hnil
      exact hnil q hq hpq
    · simp only [deleteOneByEmail, hr, Bool.false_eq_true, if_false]
      rw [List.find?_cons_of_neg _ (by simpa using hr)]
      apply ih
      rw [List.filter_cons] at h
      simpa only [hr, Bool.false_eq_true, if_false] using h

/-- C5: OTP verification is single use.  A pending, matching, unexpired OTP
for an email that has at most one record verifies successfully and the record
is deleted, so an immediately repeated verification with the same email and
code (at any later instant, on any route) fails with the 404 "Otp not found"
error and leaves the store as it was after the deletion. -/
theorem C5_otp_single_use (now now2 : Int) (url url2 : String) (st : OtpState)
    (e o : String) (r : OtpRecord)
    (hfind : st.records.find? (fun q => q.email == e) = some r)
    (he : e.isEmpty = false) (ho : o.isEmpty = false)
    (hexp : ¬ r.expires < now)
    (hctx : routeContext url = some r.context)
    (hcode : isOtpCorrect r o = true)
    (huniq : (st.records.filter (fun q => q.email == e)).length ≤ 1) :
    verifyOtp now url st (some e) (some o) =
      (.ok true, ⟨deleteOneByEmail st.records r.email⟩) ∧
    verifyOtp now2 url2 ⟨deleteOneByEmail st.records r.email⟩ (some e) (some o) =
      (.error ⟨404, "Otp not found"⟩, ⟨deleteOneByEmail st.records r.email⟩) := by
  have hre0 := List.find?_some hfind
  have hre : (r.email == e) = true := hre0
  constructor
  · simp only [verifyOtp, he, ho, Bool.or_self, Bool.false_eq_true, if_false, hfind]
    rw [if_neg hexp, if_neg (by simp [hctx]), if_neg (by simp [hcode])]
  · simp only [verifyOtp, he, ho, Bool.or_self, Bool.false_eq_true, if_false]
    have hgone : (deleteOneByEmail st.records r.email).find? (fun q => q.email == e) =
        none := by
      rw [show r.email = e from by simpa using hre]
      exact find?_deleteOne_eq_none st.records e huniq
    rw [hgone]

/-- C5 witness: the single record for the email verifies once on the register
route, is deleted, and the identical second attempt fails with 404
"Otp not found". -/
theorem C5_otp_single_use_witness :
    verifyOtp 50 "/register/verify-otp" otpStW (some "alice@example.com")
        (some "123456") =
      (.ok true, ⟨deleteOneByEmail otpStW.records otpW.email⟩) ∧
    verifyOtp 60 "/register/verify-otp" ⟨deleteOneByEmail otpStW.records otpW.email⟩
        (some "alice@example.com") (some "123456") =
      (.error ⟨404, "Otp not found"⟩, ⟨deleteOneByEmail otpStW.records otpW.email⟩) :=
  C5_otp_single_use 50 60 "/register/verify-otp" "/register/verify-otp" otpStW
    "alice@example.com" "123456" otpW (by decide) (by decide) (by decide) (by decide)
    (by decide) (by decide) (by decide)

/-- C6: for a pending, unexpired OTP record, when the context tag derived from
the calling route does not equal the stored context, verification fails (with
the status-404 "Invalid otp" error the code uses for this cause) even though
the submitted code matches, and the store — hence the record — is unchanged. -/
theorem C6_otp_context_mismatch_rejected (now : Int) (url : String) (st : OtpState)
    (e o : String) (r : OtpRecord)
    (hfind : st.records.find? (fun q => q.email == e) = some r)
    (he : e.isEmpty = false) (ho : o.isEmpty = false)
    (hexp : ¬ r.expires < now)
    (hctx : routeContext url ≠ some r.context)
    (hcode : isOtpCorrect r o = true) :
    verifyOtp now url st (some e) (some o) = (.error ⟨404, "Invalid otp"⟩, st) := by
  simp only [verifyOtp, he, ho, Bool.or_self, Bool.false_eq_true, if_false, hfind]
  rw [if_neg hexp, if_pos (by simp [bne_iff_ne, hctx])]

/-- C6 witness: the same record and correct code, submitted from the login
route instead of the register route, is rejected with 404 "Invalid otp" and
the store is unchanged. -/
theorem C6_otp_context_mismatch_witness :
    verifyOtp 50 "/login/verify-otp" otpStW (some "alice@example.com")
        (some "123456") = (.error ⟨404, "Invalid otp"⟩, otpStW) :=
  C6_otp_context_mismatch_rejected 50 "/login/verify-otp" otpStW
    "alice@example.com" "123456" otpW (by decide) (by decide) (by decide) (by decide)
    (by decide) (by decide)

/-- C7: when the presented refresh token is cryptographically valid (`verify`
succeeds with the id of an existing user) but is not equal to the token
currently stored on that user record, the exchange fails with the 401
"Refresh token is expired or used" error and the store is returned unchanged:
no new token pair is generated or saved. -/
theorem C7_refresh_reuse_rejected (verify : String → Option String)
    (gen : String → String × String) (db : DB) (tok uid : String) (u : User)
    (hv : verify tok = some uid)
    (hu : db.users.find? (fun w => w.id == uid) = some u)
    (hne : u.refreshToken ≠ some tok) :
    refreshAccessToken verify gen db (some tok) =
      (.error ⟨401, "Refresh token is expired or used"⟩, db) := by
  simp only [refreshAccessToken, hv, hu]
  rw [if_pos (by simp only [bne_iff_ne, ne_eq]; exact fun h => hne h.symm)]

def verifyW : String → Option String :=
  fun t => if t == "stolen-token" then some "u1" else none

def genW : String → String × String :=
  fun i => (i ++ "-access", i ++ "-refresh")

/-- C7 witness: `u1` currently stores refresh token "rt-current"; presenting
the validly signed "stolen-token" is rejected with 401 and the store is
unchanged. -/
theorem C7_refresh_reuse_witness :
    refreshAccessToken verifyW genW dbW (some "stolen-token") =
      (.error ⟨401, "Refresh token is expired or used"⟩, dbW) :=
  C7_refresh_reuse_rejected verifyW genW dbW "stolen-token" "u1" userW (by decide)
    (by decide) (by decide)

/-- C8: the channel-profile aggregation matches the stored (lowercase-
normalized) username against the lowercased request username — hence
case-insensitively; for the first matching user it returns the public fields
with the count of edges where the user is the channel, the count of edges
where the user is the subscriber, and `isSubscribed` true exactly when the
viewer id is among the subscriber ids of those edges, false whenever the
viewer is absent; with no matching user it fails with 404. -/
theorem C8_channel_profile_contract (db : DB) (uname : String)
    (viewer : Option String)
    (hlow : ∀ w ∈ db.users, jsToLower w.username = w.username) :
    (db.users.filter (fun w => w.username == jsToLower uname) =
      db.users.filter (fun w => jsToLower w.username == jsToLower uname)) ∧
    (∀ u rest, db.users.filter (fun w => w.username == jsToLower uname) = u :: rest →
      (jsTrim uname).isEmpty = false →
      getUserChannelProfile db (some uname) viewer =
        .ok (channelProfileDoc db viewer u) ∧
      (channelProfileDoc db viewer u).subscribersCount =
        (db.subscriptions.filter (fun s => s.channel == u.id)).length ∧
      (channelProfileDoc db viewer u).channelsSubscibedToCount =
        (db.subscriptions.filter (fun s => s.subscriber == u.id)).length ∧
      ((channelProfileDoc db viewer u).isSubscribed = true ↔
        ∃ v, viewer = some v ∧
          v ∈ (db.subscriptions.filter (fun s => s.channel == u.id)).map
            Subscription.subscriber) ∧
      (viewer = none → (channelProfileDoc db viewer u).isSubscribed = false)) ∧
    ((jsTrim uname).isEmpty = false →
      db.users.filter (fun w => w.username == jsToLower uname) = [] →
      getUserChannelProfile db (some uname) viewer =
        .error ⟨404, "channel does not exists"⟩) := by
  refine ⟨List.filter_congr (fun w hw => by rw [hlow w hw]), ?_, ?_⟩
  · intro u rest hfilter ht
    refine ⟨?_, rfl, rfl, ?_, ?_⟩
    · simp only [getUserChannelProfile]
      rw [if_neg (by simp [ht]), hfilter]
      simp only [List.map_cons]
    · cases viewer with
      | none => simp [channelProfileDoc]
      | some v0 =>
        simp only [channelProfileDoc]
        constructor
        · intro hc
          exact ⟨v0, rfl, by simpa using hc⟩
        · rintro ⟨v1, hv1, hmem⟩
          cases hv1
          simpa using hmem
    · intro hnone
      subst hnone
      simp [channelProfileDoc]
  · intro ht hempty
    simp only [getUserChannelProfile]
    rw [if_neg (by simp [ht]), hempty]
    simp only [List.map_nil]

def chanU : User :=
  { id := "c1", username := "channelguy", email := "chan@example.com",
    fullName := "Channel Guy", avatar := "ca", coverImage := "cc",
    verified := false, createdAt := 9, watchHistory := [], refreshToken := none }

def dbC : DB :=
  { users := [userW, chanU], videos := [],
    subscriptions := [⟨"u1", "c1"⟩, ⟨"c1", "u9"⟩] }

/-- C8 witness: the username "ChannelGuy" (mixed case) resolves to the stored
"channelguy"; the channel has one subscriber (`u1`) and one subscription, the
viewer `u1` sees `isSubscribed = true`, and an unknown username gets 404. -/
theorem C8_channel_profile_witness :
    getUserChannelProfile dbC (some "ChannelGuy") (some "u1") =
      .ok (channelProfileDoc dbC (some "u1") chanU) ∧
    (channelProfileDoc dbC (some "u1") chanU).subscribersCount = 1 ∧
    (channelProfileDoc dbC (some "u1") chanU).channelsSubscibedToCount = 1 ∧
    (channelProfileDoc dbC (some "u1") chanU).isSubscribed = true ∧
    (channelProfileDoc dbC none chanU).isSubscribed = false ∧
    getUserChannelProfile dbC (some "missing") none =
      .error ⟨404, "channel does not exists"⟩ := by
  have h1 := C8_channel_profile_contract dbC "ChannelGuy" (some "u1") (by decide)
  have h2 := h1.2.1 chanU [] (by decide) (by decide)
  have h3 := C8_channel_profile_contract dbC "missing" none (by decide)
  exact ⟨h2.1, by decide, by decide, by decide, by decide,
    h3.2.2 (by decide) (by decide)⟩

/-- C9: on the would-be success path of the avatar update — a file is present,
its mimetype contains "image", the CDN upload returns a secure url, the user
exists — the handler raises the `ReferenceError` for the undeclared
identifier `ture` while building the update options, so it never returns the
updated user document. -/
theorem C9_avatar_update_reference_error (upload : String → String → Option String)
    (db : DB) (userId : String) (f : UploadedFile) (u : User) (url : String)
    (hpath : f.path.isEmpty = false)
    (hmime : jsIncludes f.mimetype "image" = true)
    (hup : upload f.path "videotube/users" = some url)
    (hu : db.users.find? (fun w => w.id == userId) = some u) :
    updateUserAvatar upload db userId (some f) =
      (.error (.referenceError "ture"), false) := by
  simp only [updateUserAvatar, hpath, hmime, hup, hu, Bool.not_true,
    Bool.false_eq_true, if_false]

def uploadW : String → String → Option String :=
  fun _ _ => some "https://cdn.example/new.png"

def fileW : UploadedFile := { path := "/tmp/upload.png", mimetype := "image/png" }

/-- C9 witness: a valid png avatar upload for the existing user `u1`, with the
CDN upload succeeding, still ends in the `ture` reference error instead of the
updated document. -/
theorem C9_avatar_update_witness :
    updateUserAvatar uploadW dbW "u1" (some fileW) =
      (.error (.referenceError "ture"), false) :=
  C9_avatar_update_reference_error uploadW dbW "u1" fileW userW
    "https://cdn.example/new.png" (by decide) (by decide) (by decide) (by decide)

/-- C10: the cover-image handler rejects any upload whose mimetype contains
"gif" or does not contain "image" with the 400 client error, deleting the
temporary local file and leaving the store unchanged; the avatar handler has
no gif clause: for any mimetype containing "image" (gifs included) it passes
the gate — it never produces that rejection and never unlinks the file. -/
theorem C10_cover_gif_rejected_avatar_accepts (upload : String → String → Option String)
    (db : DB) (userId : String) (f : UploadedFile)
    (hpath : f.path.isEmpty = false) :
    (jsIncludes f.mimetype "gif" = true ∨ jsIncludes f.mimetype "image" = false →
      updateUserCoverImage upload db userId (some f) =
        (.error (.api ⟨400, "Only images are allowed to upload"⟩), db, true)) ∧
    (jsIncludes f.mimetype "image" = true →
      (updateUserAvatar upload db userId (some f)).1 ≠
        .error (.api ⟨400, "Only images are allowed to upload"⟩) ∧
      (updateUserAvatar upload db userId (some f)).2 = false) := by
  constructor
  · intro hbad
    simp only [updateUserCoverImage, hpath, Bool.false_eq_true, if_false]
    rcases hbad with h | h <;> simp [h]
  · intro himg
    have hred : updateUserAvatar upload db userId (some f) =
        match upload f.path "videotube/users" with
        | none => (.error (.api ⟨500, "Error while uploading avatar"⟩), false)
        | some _ =>
          match db.users.find? (fun w => w.id == userId) with
          | none => (.error (.typeError "oldUser is null"), false)
          | some _ => (.error (.referenceError "ture"), false) := by
      simp only [updateUserAvatar, hpath, himg, Bool.not_true,
        Bool.false_eq_true, if_false]
    rw [hred]
    cases upload f.path "videotube/users" with
    | none => simp
    | some url =>
      cases db.users.find? (fun w => w.id == userId) with
      | none => simp
      | some u => simp

def fileG : UploadedFile := { path := "/tmp/anim.gif", mimetype := "image/gif" }

/-- C10 witness: a gif upload is rejected by the cover handler (file unlinked,
store unchanged) but passes the avatar mimetype gate: the avatar handler does
not produce the mimetype rejection and does not unlink the file. -/
theorem C10_cover_gif_witness :
    updateUserCoverImage uploadW dbW "u1" (some fileG) =
      (.error (.api ⟨400, "Only images are allowed to upload"⟩), dbW, true) ∧
    (updateUserAvatar uploadW dbW "u1" (some fileG)).1 ≠
      .error (.api ⟨400, "Only images are allowed to upload"⟩) ∧
    (updateUserAvatar uploadW dbW "u1" (some fileG)).2 = false := by
  have h := C10_cover_gif_rejected_avatar_accepts uploadW dbW "u1" fileG (by decide)
  exact ⟨h.1 (Or.inl (by decide)), h.2 (by decide)⟩

end VideoApp
